import Mathlib

/-!
Verification of the Shelfari calibre metadata-source plugin
(`src/shelfari/__init__.py` and `src/shelfari/worker.py`) against its
natural-language specification.

The Python source is shallowly embedded: each relevant function is
translated to an executable Lean definition.  Python values that can be
`None` become `Option`; Python truthiness on strings and lists is made
explicit; code paths that raise an exception are modelled with
`Except String` (the error string names the Python exception).  External
calibre helpers (`check_isbn`, `get_title_tokens`, `get_author_tokens`,
`quote`, `lower`, `canonicalize_lang`) are treated as the spec treats
them — pure utility functions — and enter the embedding either as
function parameters or as the already-computed values they return.
-/

/-! ## Small Python-semantics helpers -/

/-- Python truthiness of an optional string: `None` and `""` are falsy. -/
def truthyS : Option String → Bool
  | some s => s ≠ ""
  | none => false

/-- Python truthiness of an optional string list: `None` and `[]` are falsy. -/
def truthyL : Option (List String) → Bool
  | some l => !l.isEmpty
  | none => false

/-- Python `sep.join(parts)` for strings. -/
def pyJoin (sep : String) : List String → String
  | [] => ""
  | [s] => s
  | s :: rest => s ++ sep ++ pyJoin sep rest

/-- Python's `pat in hay` substring test on strings. -/
def strContains (hay pat : String) : Bool := decide (pat.data <:+: hay.data)

/-- ASCII lower-casing of one character. -/
def charLower (c : Char) : Char :=
  if 'A' ≤ c ∧ c ≤ 'Z' then Char.ofNat (c.toNat + 32) else c

/-- Models the external `calibre.utils.icu.lower` helper (ASCII fragment). -/
def lower (s : String) : String := ⟨s.data.map charLower⟩

/-- `re.sub('[^0-9]', '', s)`: keep only the decimal digits of `s`. -/
def stripNonDigits (s : String) : String := ⟨s.data.filter Char.isDigit⟩

/-- The numeric value of a digits-only string (what Python's `float` returns
on it, which is exact for the digit counts that occur here). -/
def natFromDigits (s : String) : Nat :=
  s.data.foldl (fun n c => 10 * n + (c.toNat - 48)) 0

/-! ## Query Builder (`Shelfari._create_query`, `__init__.py` lines 91–124)

`isbn` is the value already returned by the external checksum routine
`check_isbn` (`some` = a valid ISBN is present).  `titleTruthy` and
`authorsTruthy` are the Python truthiness of the raw `title` and `authors`
arguments, and `title_tokens` / `author_tokens` are the already-quoted
token lists produced by the external calibre tokenizers inside the
`if title or authors:` branch.

Faithful quirk of the source: `q` starts as a Python *list*; only inside
the `if title or authors:` branch is it turned into a string by
`'&'.join(q)`.  On the path where a valid ISBN is present but both
`title` and `authors` are falsy, line 124 evaluates `str + list`, which
raises a `TypeError` in Python 2; that path is modelled by
`Except.error`. -/

def BASE_URL : String := "http://www.shelfari.com"

def create_query (isbn : Option String) (titleTruthy authorsTruthy : Bool)
    (title_tokens author_tokens : List String) : Except String (Option String) :=
  let q0 : List String :=
    match isbn with
    | some i => ["Isbn=" ++ i]
    | none => []
  if titleTruthy || authorsTruthy then
    let q1 := q0 ++ (if title_tokens.isEmpty then [] else
      ["Title=" ++ pyJoin "+" title_tokens])
    let q2 := q1 ++ (if author_tokens.isEmpty then [] else
      ["Author=" ++ pyJoin "+" author_tokens])
    let q := pyJoin "&" q2
    if q = "" then .ok none
    else .ok (some (BASE_URL ++ "/search/books?" ++ q))
  else
    if q0.isEmpty then .ok none
    else .error "TypeError: cannot concatenate str and list objects"

/-! ## DOM model and Result Parser (`Shelfari._parse_search_results`) -/

/-- A minimal HTML element: tag name, attributes, child elements, and the
text directly contained in the element (before its children). -/
inductive Elem : Type where
  | mk : String → List (String × String) → List Elem → String → Elem

def Elem.tag : Elem → String
  | .mk t _ _ _ => t

def Elem.attrList : Elem → List (String × String)
  | .mk _ a _ _ => a

def Elem.childs : Elem → List Elem
  | .mk _ _ cs _ => cs

/-- `element.get(name, None)` on an lxml element. -/
def Elem.getAttr (e : Elem) (name : String) : Option String :=
  e.attrList.lookup name

mutual
/-- The element itself followed by all of its descendants, in document
order (the node set an XPath `//` step ranges over). -/
def Elem.descendants : Elem → List Elem
  | .mk t a cs x => .mk t a cs x :: descendantsOfList cs

def descendantsOfList : List Elem → List Elem
  | [] => []
  | e :: es => e.descendants ++ descendantsOfList es
end

mutual
/-- lxml's `text_content()`: the concatenated text of the element and all
its descendants. -/
def Elem.textContent : Elem → String
  | .mk _ _ cs x => x ++ textContentOfList cs

def textContentOfList : List Elem → String
  | [] => ""
  | e :: es => e.textContent ++ textContentOfList es
end

/-- Does the element have the given tag and `class` attribute? -/
def Elem.hasTagClass (e : Elem) (t cls : String) : Bool :=
  e.tag = t && e.getAttr "class" = some cls

/-- XPath child step `./tag` . -/
def Elem.childrenTag (e : Elem) (t : String) : List Elem :=
  e.childs.filter (fun c => c.tag = t)

/-- XPath child step `./tag[@class="cls"]`. -/
def Elem.childrenTagClass (e : Elem) (t cls : String) : List Elem :=
  e.childs.filter (fun c => c.hasTagClass t cls)

/-- XPath `./div[@class="text"]/h3/a` relative to `e` (used both on a
result entry for its title link and — due to the bug at line 262 — on the
document root for the href). -/
def Elem.divTextH3A (e : Elem) : List Elem :=
  ((e.childrenTagClass "div" "text").flatMap (fun d => d.childrenTag "h3")).flatMap
    (fun h => h.childrenTag "a")

/-- XPath `./div[@class="text"]/a` relative to `e` (the author link of a
result entry). -/
def Elem.divTextA (e : Elem) : List Elem :=
  (e.childrenTagClass "div" "text").flatMap (fun d => d.childrenTag "a")

/-- XPath `//ol[@class="book_results"]/li`: all result entries of a
search-results page. -/
def bookResults (root : Elem) : List Elem :=
  (root.descendants.filter (fun e => e.hasTagClass "ol" "book_results")).flatMap
    (fun o => o.childrenTag "li")

/-- Python `str.strip()` (whitespace at both ends). -/
def pyStrip (s : String) : String :=
  ⟨(s.data.dropWhile Char.isWhitespace).reverse.dropWhile Char.isWhitespace |>.reverse⟩

/-- Python `str.split(',')`. -/
def splitOnComma (s : String) : List String :=
  go s.data [] |>.map (fun l => ⟨l⟩)
where
  go : List Char → List Char → List (List Char)
    | [], acc => [acc.reverse]
    | c :: cs, acc =>
      if c = ',' then acc.reverse :: go cs [] else go cs (c :: acc)

/-- The inner `ismatch` closure of `_parse_search_results`
(`__init__.py` lines 232–246): the title matches when no title tokens
were supplied or some lowered title token occurs in the lowered display
title; likewise for author tokens against the space-joined, lowered
display authors (the redundant re-check of empty author tokens at line
245 changes nothing). -/
def ismatch (title_tokens author_tokens : List String)
    (title : String) (authors : List String) : Bool :=
  let authorsL := lower (pyJoin " " authors)
  let titleL := lower title
  let tmatch := title_tokens.isEmpty ||
    title_tokens.any (fun t => strContains titleL (lower t))
  let amatch := author_tokens.isEmpty ||
    author_tokens.any (fun a => strContains authorsL (lower a))
  tmatch && amatch

/-- `Shelfari._parse_search_results` (`__init__.py` lines 225–281), with
the token lists already computed by the external tokenizers.  Returns the
list of URLs appended to `matches`, in order, or the Python exception the
loop raises.  Faithful quirks of the source:
* line 252 reads `shelfari.replace("SR", "")` where the variable is named
  `shelfari_id`, so any entry whose `id` attribute is truthy raises
  `NameError`;
* lines 255–256 index `[0]` into the XPath result, so an entry without
  the title/author nodes raises `IndexError`;
* line 262 evaluates the relative path `./div[@class="text"]/h3/a/@href`
  against `root` (the whole document) instead of `result`. -/
def parse_search_results (title_tokens author_tokens : List String)
    (root : Elem) : Except String (List String) :=
  let results := bookResults root
  if results.isEmpty then .ok []
  else loop root title_tokens author_tokens results
where
  loop (root : Elem) (title_tokens author_tokens : List String) :
      List Elem → Except String (List String)
    | [] => .ok []
    | result :: rest => do
      if truthyS (result.getAttr "id") then
        throw "NameError: global name shelfari is not defined"
      let titleNodes := result.divTextH3A
      match titleNodes with
      | [] => throw "IndexError: list index out of range"
      | tn :: _ =>
        let title := pyStrip tn.textContent
        match result.divTextA with
        | [] => throw "IndexError: list index out of range"
        | an :: _ =>
          let authors := splitOnComma (pyStrip an.textContent)
          if !ismatch title_tokens author_tokens title authors then
            loop root title_tokens author_tokens rest
          else
            let url_node := root.divTextH3A.filterMap (fun a => a.getAttr "href")
            match url_node with
            | [] => loop root title_tokens author_tokens rest
            | u :: _ => do
              let tail_ ← loop root title_tokens author_tokens rest
              pure (u :: tail_)

/-! ## Detail Parser and Fetch Worker (`worker.py`) -/

/-- The fixed localized-language table built in `Worker.__init__`
(`worker.py` lines 74–87), flattened to name → code pairs. -/
def lang_map : List (String × String) :=
  [("English", "eng"), ("Englisch", "eng"),
   ("French", "fra"), ("Français", "fra"),
   ("Italian", "ita"), ("Italiano", "ita"),
   ("Dutch", "dut"),
   ("German", "deu"), ("Deutsch", "deu"),
   ("Spanish", "spa"), ("Español", "spa"), ("Espaniol", "spa"),
   ("Japanese", "jpn"), ("日本語", "jpn"),
   ("Portuguese", "por"), ("Português", "por")]

/-- `Worker._parse_language` (`worker.py` lines 383–391), given the raw
text of the `inLanguage` node and the external `canonicalize_lang`
routine.  Faithful quirk of the source: after the table lookup misses,
line 390 calls `canonicalize_lang(ans)` — where `ans` is the (falsy)
lookup result, i.e. `None` — instead of `canonicalize_lang(raw)`. -/
def parse_language (canon : Option String → Option String)
    (raw : String) : Option String :=
  let ans := lang_map.lookup raw
  if truthyS ans then ans
  else
    let ans2 := canon ans
    if truthyS ans2 then ans2 else none

/-- The normalization applied by `Worker.parse_rating` (`worker.py`
lines 284–292) to the text of the rating node: strip the non-digit
characters, parse the rest as a number (`float('')` raises `ValueError`
when no digit remains), and divide by 100 when the value is at least
100. -/
def parse_rating (rating_text : String) : Except String ℚ :=
  let ds := stripNonDigits rating_text
  if ds = "" then .error "ValueError: could not convert string to float"
  else
    let v : ℚ := (natFromDigits ds : ℚ)
    if v ≥ 100 then .ok (v / 100) else .ok v

/-- `Worker.parse_tags` (`worker.py` lines 332–349): the body begins with
a bare `return None` at line 333, so the genre-extraction code after it
is unreachable and the function yields `None` for every page. -/
def parse_tags (_root : Elem) : Option (List String) := none

/-- The per-field outcomes `Worker.parse_details` has in hand after its
fault-isolated extraction steps (`worker.py` lines 152–224): each field
holds the value its extractor returned, or the fallback installed by the
surrounding `try/except` (`None`, and `[]` for authors). -/
structure ParsedFields where
  shelfari_id : Option String
  title : Option String
  series : Option String
  series_index : Option String
  authors : List String
  isbn : Option String
  rating : Option ℚ
  comments : Option String
  cover_url : Option String
  tags : Option (List String)
  publisher : Option String
  pubdate : Option String
  lang : Option String

/-- The metadata record a worker pushes onto the shared result queue
(the `Metadata` object `mi` as populated by `parse_details`). -/
structure Record where
  title : String
  authors : List String
  series : Option String
  series_index : Option String
  shelfari_id : String
  isbn : Option String
  rating : Option ℚ
  comments : Option String
  has_cover : Bool
  tags : Option (List String)
  publisher : Option String
  pubdate : Option String
  language : Option String
  relevance : Nat
deriving DecidableEq

/-- Everything observable that one run of `Worker.parse_details` emits:
the record put on the result queue (if any) and the two opportunistic
cache writes (ISBN → shelfari id, shelfari id → cover URL). -/
structure EmitResult where
  record : Option Record
  cache_isbn_to_id : Option (String × String)
  cache_id_to_cover : Option (String × String)
deriving DecidableEq

/-- An `EmitResult` in which nothing at all was emitted. -/
def emitNothing : EmitResult := ⟨none, none, none⟩

/-- `Worker.parse_details` (`worker.py` lines 152–237) from the gate at
line 171 onwards, as a function of the per-field extraction outcomes and
the worker's `relevance` rank: if title, authors or shelfari id is falsy
the worker only logs and returns; otherwise it populates `mi` (each
optional field assigned under the same truthiness guard as the source),
sets `mi.source_relevance`, performs the two guarded cache writes, and
puts `mi` on the result queue. -/
def parse_details (f : ParsedFields) (relevance : Nat) : EmitResult :=
  if truthyS f.title && !f.authors.isEmpty && truthyS f.shelfari_id then
    let sid := f.shelfari_id.getD ""
    let isbn := if truthyS f.isbn then f.isbn else none
    let mi : Record :=
      { title := f.title.getD ""
        authors := f.authors
        series := if truthyS f.series then f.series else none
        series_index := if truthyS f.series then f.series_index else none
        shelfari_id := sid
        isbn := isbn
        rating := f.rating
        comments := f.comments
        has_cover := truthyS f.cover_url
        tags := if truthyL f.tags then f.tags else none
        publisher := f.publisher
        pubdate := f.pubdate
        language := if truthyS f.lang then f.lang else none
        relevance := relevance }
    { record := some mi
      cache_isbn_to_id :=
        if truthyS f.shelfari_id && truthyS f.isbn then
          some (f.isbn.getD "", sid)
        else none
      cache_id_to_cover :=
        if truthyS f.shelfari_id && truthyS f.cover_url then
          some (sid, f.cover_url.getD "")
        else none }
  else emitNothing

/-! ## Concrete search-results pages used as inputs -/

/-- The title link of a result entry for "61 Hours". -/
def aTitle : Elem := .mk "a" [("href", "/books/6977769")] [] "61 Hours"

def h3Title : Elem := .mk "h3" [] [aTitle] ""

/-- The author link of the entry. -/
def aAuthor : Elem := .mk "a" [] [] "Lee Child"

def divTextNode : Elem := .mk "div" [("class", "text")] [h3Title, aAuthor] ""

/-- A result entry without an `id` attribute. -/
def entryPlain : Elem := .mk "li" [] [divTextNode] ""

/-- The same result entry carrying an `id` attribute, as the site's
markup does (`id="SR…"`, which line 250 reads and line 252 strips). -/
def entryWithId : Elem := .mk "li" [("id", "SR6977769")] [divTextNode] ""

def resultsList (entries : List Elem) : Elem :=
  .mk "ol" [("class", "book_results")] entries ""

def pageOf (entries : List Elem) : Elem :=
  .mk "html" [] [.mk "head" [] [] "", .mk "body" [] [resultsList entries] ""] ""

/-! ## Theorems -/

/-- C7: the Query Builder is claimed to be a total pure function that
never raises, returning the ISBN-only query URL when a valid ISBN is
present without title/author data.  On exactly that input the source
leaves `q` a Python list (the `'&'.join` happens only inside the
`if title or authors:` branch), so line 124 concatenates a `str` with a
`list` and raises `TypeError`; `identify` calls `_create_query` outside
any `try`, so the exception propagates to the caller. -/
theorem create_query_isbn_only_raises_type_error :
    create_query (some "9780385340588") false false [] [] =
      .error "TypeError: cannot concatenate str and list objects" := rfl

/-- C8: the external fallback for a language name missing from the fixed
table is claimed to receive the raw name.  In the source, after the table
lookup misses, line 390 calls `canonicalize_lang(ans)` where `ans` is the
falsy lookup result (`None`), not `raw`; so with a fallback that would
canonicalize "Svenska", the parser still returns nothing, while names in
the table resolve normally. -/
theorem parse_language_fallback_gets_none :
    parse_language (fun o => if o = some "Svenska" then some "swe" else none)
        "Svenska" = none ∧
    (fun (o : Option String) => if o = some "Svenska" then some "swe" else none)
        (some "Svenska") = some "swe" ∧
    parse_language (fun o => if o = some "Svenska" then some "swe" else none)
        "Français" = some "fra" := by
  decide

/-- C10: `parse_tags` returns `None` for every page (its body starts with
a bare `return None`, making the genre-mapping code after it
unreachable), and consequently a record emitted by `parse_details` never
carries tags, whatever the other field outcomes are. -/
theorem parse_tags_none_and_records_untagged :
    ∀ (root : Elem) (f : ParsedFields) (rel : Nat),
      parse_tags root = none ∧
      (parse_details { f with tags := parse_tags root } rel).record.all
        (fun r => r.tags.isNone) = true := by
  intro root f rel
  refine ⟨rfl, ?_⟩
  by_cases h : (truthyS f.title && !f.authors.isEmpty && truthyS f.shelfari_id) = true
  · simp [parse_details, h, truthyL, parse_tags]
  · simp [parse_details, h, emitNothing]

/-- C2: the Result Parser is claimed to append the URL of every entry
that passes the match filter, so a page with a matching entry yields a
non-empty candidate list.  On a page holding exactly one entry — which
carries the href `/books/6977769`, passes `ismatch`, and has no `id`
attribute — the parser appends nothing: line 262 evaluates the relative
path `./div[@class="text"]/h3/a/@href` against `root` (the document)
instead of `result`, so `url_node` is always empty. -/
theorem parse_search_results_drops_matching_entry_url :
    entryPlain.divTextH3A.filterMap (fun a => a.getAttr "href") =
      ["/books/6977769"] ∧
    ismatch ["61", "hours"] ["child"] "61 Hours" ["Lee Child"] = true ∧
    parse_search_results ["61", "hours"] ["child"] (pageOf [entryPlain]) =
      .ok [] := by
  refine ⟨by decide, by decide, rfl⟩

/-- C9: `identify` is claimed never to raise, in particular on
search-results pages whose entries carry an `id` attribute.  On such a
page the loop body's line 252 evaluates `shelfari.replace("SR", "")`,
but no variable `shelfari` exists (the value was bound to `shelfari_id`),
so a `NameError` is raised; `identify` invokes `_parse_search_results`
(line 193) outside any `try`, so the exception reaches its caller. -/
theorem parse_search_results_id_attribute_raises :
    parse_search_results ["61", "hours"] ["child"] (pageOf [entryWithId]) =
      .error "NameError: global name shelfari is not defined" := rfl

/-- C4: a search-result entry is kept exactly when the title-token set is
empty or some title token occurs case-insensitively in the display title,
and the author-token set is empty or some author token occurs
case-insensitively in the space-joined display authors; with tokens
{"61","hours"} / {"child"}, "61 Hours" by "Lee Child" is kept and
"Unrelated Book" by "Lee Child" is rejected. -/
theorem ismatch_iff_token_substring :
    (∀ (tt ta : List String) (title : String) (authors : List String),
      ismatch tt ta title authors = true ↔
        ((tt = [] ∨ ∃ t ∈ tt, strContains (lower title) (lower t) = true) ∧
         (ta = [] ∨ ∃ a ∈ ta,
           strContains (lower (pyJoin " " authors)) (lower a) = true))) ∧
    ismatch ["61", "hours"] ["child"] "61 Hours" ["Lee Child"] = true ∧
    ismatch ["61", "hours"] ["child"] "Unrelated Book" ["Lee Child"] = false := by
  refine ⟨?_, by decide, by decide⟩
  intro tt ta title authors
  simp [ismatch, Bool.and_eq_true, Bool.or_eq_true, List.any_eq_true,
    List.isEmpty_iff]

/-- C3: a Fetch Worker pushes a record onto the shared result queue only
when title, authors and the shelfari id are all present; whenever one of
the three is missing, `parse_details` emits nothing at all — no record
and no cache write — regardless of the other field outcomes. -/
theorem parse_details_mandatory_field_gate (f : ParsedFields) (rel : Nat)
    (h : ¬(truthyS f.title = true ∧ f.authors ≠ [] ∧
      truthyS f.shelfari_id = true)) :
    parse_details f rel = emitNothing := by
  unfold parse_details
  split
  · rename_i hcond
    exact absurd (by simpa [List.isEmpty_iff, and_assoc] using hcond) h
  · rfl

/-- Witness for C3: a detail page that parsed a title, shelfari id, ISBN,
rating, cover URL and language, but no authors, yields no record and no
cache writes. -/
theorem parse_details_mandatory_field_gate_witness :
    (¬(truthyS (some "61 Hours") = true ∧ ([] : List String) ≠ [] ∧
        truthyS (some "6977769") = true)) ∧
      parse_details
        { shelfari_id := some "6977769", title := some "61 Hours",
          series := some "Jack Reacher", series_index := some "14",
          authors := [], isbn := some "9780385340588", rating := some 4,
          comments := some "desc", cover_url := some "http://c/x.jpg",
          tags := none, publisher := some "Dell", pubdate := some "2010",
          lang := some "eng" } 3 = emitNothing :=
  ⟨by decide, parse_details_mandatory_field_gate _ 3 (by decide)⟩

/-- C6: when a worker reaches the emitting step (title, authors and
shelfari id all present), it pushes a record whose relevance is the
worker's rank, writes the ISBN→siteId cache entry exactly when both the
ISBN and the site id are resolved, and writes the siteId→coverUrl entry
exactly when both the site id and the cover URL are resolved. -/
theorem parse_details_emit_and_cache (f : ParsedFields) (rel : Nat)
    (h : truthyS f.title = true ∧ f.authors ≠ [] ∧
      truthyS f.shelfari_id = true) :
    (parse_details f rel).record.isSome = true ∧
    (parse_details f rel).record.map Record.relevance = some rel ∧
    ((parse_details f rel).cache_isbn_to_id.isSome =
      (truthyS f.isbn && truthyS f.shelfari_id)) ∧
    ((parse_details f rel).cache_id_to_cover.isSome =
      (truthyS f.cover_url && truthyS f.shelfari_id)) := by
  obtain ⟨h1, h2, h3⟩ := h
  have hcond : (truthyS f.title && !f.authors.isEmpty &&
      truthyS f.shelfari_id) = true := by
    simp [h1, h3, List.isEmpty_iff, h2]
  unfold parse_details
  rw [if_pos hcond]
  refine ⟨rfl, rfl, ?_, ?_⟩
  · cases hi : truthyS f.isbn <;> simp [hi, h3]
  · cases hc : truthyS f.cover_url <;> simp [hc, h3]

/-- Witness for C6: a fully resolved detail page at rank 2 emits a record
of relevance 2 and both cache entries. -/
theorem parse_details_emit_and_cache_witness :
    ((truthyS (some "61 Hours") = true ∧ (["Lee Child"] : List String) ≠ [] ∧
        truthyS (some "6977769") = true)) ∧
      ((parse_details
          { shelfari_id := some "6977769", title := some "61 Hours",
            series := some "Jack Reacher", series_index := some "14",
            authors := ["Lee Child"], isbn := some "9780385340588",
            rating := none, comments := some "desc",
            cover_url := some "http://c/x.jpg", tags := none,
            publisher := some "Dell", pubdate := some "2010",
            lang := some "eng" } 2).record.isSome = true ∧
        (parse_details
          { shelfari_id := some "6977769", title := some "61 Hours",
            series := some "Jack Reacher", series_index := some "14",
            authors := ["Lee Child"], isbn := some "9780385340588",
            rating := none, comments := some "desc",
            cover_url := some "http://c/x.jpg", tags := none,
            publisher := some "Dell", pubdate := some "2010",
            lang := some "eng" } 2).record.map Record.relevance = some 2 ∧
        ((parse_details
          { shelfari_id := some "6977769", title := some "61 Hours",
            series := some "Jack Reacher", series_index := some "14",
            authors := ["Lee Child"], isbn := some "9780385340588",
            rating := none, comments := some "desc",
            cover_url := some "http://c/x.jpg", tags := none,
            publisher := some "Dell", pubdate := some "2010",
            lang := some "eng" } 2).cache_isbn_to_id.isSome =
          (truthyS (some "9780385340588") && truthyS (some "6977769"))) ∧
        ((parse_details
          { shelfari_id := some "6977769", title := some "61 Hours",
            series := some "Jack Reacher", series_index := some "14",
            authors := ["Lee Child"], isbn := some "9780385340588",
            rating := none, comments := some "desc",
            cover_url := some "http://c/x.jpg", tags := none,
            publisher := some "Dell", pubdate := some "2010",
            lang := some "eng" } 2).cache_id_to_cover.isSome =
          (truthyS (some "http://c/x.jpg") && truthyS (some "6977769")))) :=
  ⟨by decide, parse_details_emit_and_cache _ 2 (by decide)⟩

/-- C5: for a rating text whose digit-stripped form is non-empty, the
parsed rating is the stripped number divided by 100 when it is at least
100 and the number unchanged when it is below 100; in particular digits
"400" normalize to 4 and digits "45" stay 45. -/
theorem parse_rating_normalization (text : String)
    (h : stripNonDigits text ≠ "") :
    ((100 ≤ (natFromDigits (stripNonDigits text) : ℚ) →
        parse_rating text =
          .ok ((natFromDigits (stripNonDigits text) : ℚ) / 100)) ∧
      ((natFromDigits (stripNonDigits text) : ℚ) < 100 →
        parse_rating text =
          .ok (natFromDigits (stripNonDigits text) : ℚ))) ∧
    parse_rating "400" = .ok 4 ∧ parse_rating "45" = .ok 45 := by
  refine ⟨⟨?_, ?_⟩, ?_, ?_⟩
  · intro hge
    unfold parse_rating
    rw [if_neg h, if_pos (by exact hge)]
  · intro hlt
    unfold parse_rating
    rw [if_neg h, if_neg (by exact not_le.mpr hlt)]
  · have h1 : stripNonDigits "400" = "400" := by decide
    have h2 : natFromDigits "400" = 400 := by decide
    unfold parse_rating
    rw [h1, if_neg (by decide), h2,
      if_pos (by norm_num : (100 : ℚ) ≤ ((400 : Nat) : ℚ)),
      show ((400 : Nat) : ℚ) / 100 = 4 by norm_num]
  · have h1 : stripNonDigits "45" = "45" := by decide
    have h2 : natFromDigits "45" = 45 := by decide
    unfold parse_rating
    rw [h1, if_neg (by decide), h2,
      if_neg (by norm_num : ¬ (100 : ℚ) ≤ ((45 : Nat) : ℚ)),
      show ((45 : Nat) : ℚ) = 45 by norm_num]

/-- Witness for C5: the hypothesis and conclusion at the concrete rating
text "400". -/
theorem parse_rating_normalization_witness :
    (stripNonDigits "400" ≠ "") ∧
    (((100 ≤ (natFromDigits (stripNonDigits "400") : ℚ) →
        parse_rating "400" =
          .ok ((natFromDigits (stripNonDigits "400") : ℚ) / 100)) ∧
      ((natFromDigits (stripNonDigits "400") : ℚ) < 100 →
        parse_rating "400" =
          .ok (natFromDigits (stripNonDigits "400") : ℚ))) ∧
    parse_rating "400" = .ok 4 ∧ parse_rating "45" = .ok 45) :=
  ⟨by decide, parse_rating_normalization "400" (by decide)⟩

/-- A string whose character data splits as `pre ++ pat ++ post`
contains `pat` as a substring. -/
theorem strContains_of_parts (u pat : String) (pre post : List Char)
    (h : u.data = pre ++ (pat.data ++ post)) : strContains u pat = true := by
  unfold strContains
  rw [decide_eq_true_eq]
  exact ⟨pre, post, by rw [List.append_assoc]; exact h.symm⟩

/-- Appending to a non-empty string yields a non-empty string. -/
theorem append_left_ne_empty (a b : String) (h : a ≠ "") : (a ++ b) ≠ "" := by
  intro he
  apply h
  have hd : a.data ++ b.data = [] := by
    rw [← String.data_append, he]
  exact String.ext (by simp [(List.append_eq_nil.mp hd).1])

/-- C1 counterexample: the claim says a query built from a valid ISBN
contains only the ISBN parameter; for the valid ISBN 9780385340588 with
title tokens ["61","hours"] and author tokens ["lee","child"], the built
query also contains `Title=` (and `Author=`). -/
theorem create_query_isbn_does_not_suppress_title :
    create_query (some "9780385340588") true true ["61", "hours"]
        ["lee", "child"] =
      .ok (some ("http://www.shelfari.com/search/books?" ++
        "Isbn=9780385340588&Title=61+hours&Author=lee+child")) ∧
    strContains ("http://www.shelfari.com/search/books?" ++
      "Isbn=9780385340588&Title=61+hours&Author=lee+child") "Title=" = true := by
  refine ⟨rfl, by decide⟩


/-- Joining a list whose first string is non-empty yields a non-empty
string. -/
theorem pyJoin_cons_ne_empty (sep x : String) (L : List String)
    (hx : x ≠ "") : pyJoin sep (x :: L) ≠ "" := by
  cases L with
  | nil => simpa [pyJoin] using hx
  | cons y ys =>
    exact append_left_ne_empty _ _ (append_left_ne_empty _ _ hx)

/-- With a valid ISBN and a truthy title or authors, `_create_query`
returns the URL built from the `Isbn=` part followed by the optional
`Title=` and `Author=` parts, joined by `&`. -/
theorem create_query_isbn_ok (isbn : String) (tb ab : Bool)
    (h : (tb || ab) = true) (tt ta : List String) :
    create_query (some isbn) tb ab tt ta =
      .ok (some (BASE_URL ++ "/search/books?" ++ pyJoin "&"
        (["Isbn=" ++ isbn] ++
          (if tt.isEmpty then [] else ["Title=" ++ pyJoin "+" tt]) ++
          (if ta.isEmpty then [] else ["Author=" ++ pyJoin "+" ta])))) := by
  have hq : pyJoin "&"
      (["Isbn=" ++ isbn] ++
        (if tt.isEmpty then [] else ["Title=" ++ pyJoin "+" tt]) ++
        (if ta.isEmpty then [] else ["Author=" ++ pyJoin "+" ta])) ≠ "" :=
    pyJoin_cons_ne_empty _ _ _ (append_left_ne_empty "Isbn=" isbn (by decide))
  simp only [create_query]
  rw [if_pos h, if_neg hq]

/-- C1 (amended): for every request carrying a valid ISBN together with
a truthy title or authors, the built query contains the ISBN parameter,
and it additionally contains the Title parameter whenever the title
token list is non-empty and the Author parameter whenever the author
token list is non-empty — the valid ISBN does not suppress them. -/
theorem create_query_isbn_with_title_author_params (isbn : String)
    (tb ab : Bool) (h : (tb || ab) = true) (tt ta : List String) :
    ∃ u, create_query (some isbn) tb ab tt ta = .ok (some u) ∧
      strContains u "Isbn=" = true ∧
      (tt ≠ [] → strContains u "Title=" = true) ∧
      (ta ≠ [] → strContains u "Author=" = true) := by
  rcases tt with _ | ⟨t1, tt⟩ <;> rcases ta with _ | ⟨a1, ta⟩
  · refine ⟨BASE_URL ++ "/search/books?" ++ ("Isbn=" ++ isbn),
      create_query_isbn_ok isbn tb ab h [] [], ?_, ?_, ?_⟩
    · exact strContains_of_parts _ _ ((BASE_URL ++ "/search/books?").data)
        isbn.data (by simp [String.data_append, List.append_assoc])
    · exact fun hx => absurd rfl hx
    · exact fun hx => absurd rfl hx
  · refine ⟨BASE_URL ++ "/search/books?" ++
      (("Isbn=" ++ isbn ++ "&") ++ ("Author=" ++ pyJoin "+" (a1 :: ta))),
      create_query_isbn_ok isbn tb ab h [] (a1 :: ta), ?_, ?_, ?_⟩
    · exact strContains_of_parts _ _ ((BASE_URL ++ "/search/books?").data)
        ((isbn ++ "&" ++ ("Author=" ++ pyJoin "+" (a1 :: ta))).data)
        (by simp [String.data_append, List.append_assoc])
    · exact fun hx => absurd rfl hx
    · exact fun _ => strContains_of_parts _ _
        ((BASE_URL ++ "/search/books?" ++ ("Isbn=" ++ isbn) ++ "&").data)
        ((pyJoin "+" (a1 :: ta)).data)
        (by simp [String.data_append, List.append_assoc])
  · refine ⟨BASE_URL ++ "/search/books?" ++
      (("Isbn=" ++ isbn ++ "&") ++ ("Title=" ++ pyJoin "+" (t1 :: tt))),
      create_query_isbn_ok isbn tb ab h (t1 :: tt) [], ?_, ?_, ?_⟩
    · exact strContains_of_parts _ _ ((BASE_URL ++ "/search/books?").data)
        ((isbn ++ "&" ++ ("Title=" ++ pyJoin "+" (t1 :: tt))).data)
        (by simp [String.data_append, List.append_assoc])
    · exact fun _ => strContains_of_parts _ _
        ((BASE_URL ++ "/search/books?" ++ ("Isbn=" ++ isbn) ++ "&").data)
        ((pyJoin "+" (t1 :: tt)).data)
        (by simp [String.data_append, List.append_assoc])
    · exact fun hx => absurd rfl hx
  · refine ⟨BASE_URL ++ "/search/books?" ++
      (("Isbn=" ++ isbn ++ "&") ++
        (("Title=" ++ pyJoin "+" (t1 :: tt) ++ "&") ++
          ("Author=" ++ pyJoin "+" (a1 :: ta)))),
      create_query_isbn_ok isbn tb ab h (t1 :: tt) (a1 :: ta), ?_, ?_, ?_⟩
    · exact strContains_of_parts _ _ ((BASE_URL ++ "/search/books?").data)
        ((isbn ++ "&" ++ ("Title=" ++ pyJoin "+" (t1 :: tt)) ++ "&" ++
          ("Author=" ++ pyJoin "+" (a1 :: ta))).data)
        (by simp [String.data_append, List.append_assoc])
    · exact fun _ => strContains_of_parts _ _
        ((BASE_URL ++ "/search/books?" ++ ("Isbn=" ++ isbn) ++ "&").data)
        ((pyJoin "+" (t1 :: tt) ++ "&" ++
          ("Author=" ++ pyJoin "+" (a1 :: ta))).data)
        (by simp [String.data_append, List.append_assoc])
    · exact fun _ => strContains_of_parts _ _
        ((BASE_URL ++ "/search/books?" ++ ("Isbn=" ++ isbn) ++ "&" ++
          ("Title=" ++ pyJoin "+" (t1 :: tt)) ++ "&").data)
        ((pyJoin "+" (a1 :: ta)).data)
        (by simp [String.data_append, List.append_assoc])

/-- Witness for C1 (amended): a title-only request (truthy title, falsy
authors, empty author token list) with the concrete valid ISBN. -/
theorem create_query_isbn_with_title_author_params_witness :
    ((true || false) = true) ∧
    (∃ u, create_query (some "9780385340588") true false ["61", "hours"]
        [] = .ok (some u) ∧
      strContains u "Isbn=" = true ∧
      ((["61", "hours"] : List String) ≠ [] →
        strContains u "Title=" = true) ∧
      (([] : List String) ≠ [] → strContains u "Author=" = true)) :=
  ⟨rfl, create_query_isbn_with_title_author_params "9780385340588" true
    false rfl ["61", "hours"] []⟩
